import Mathlib

/-!
Verification of the placement-lead-automation repository's core:
the persistent assignment engine (telegram-database-v2), the in-memory
universal group manager, and the job-message scoring pipeline
(job_analyzer.py).  Each definition is a shallow embedding of the
corresponding Python function; floating-point scores are modelled as
exact rationals.
-/

namespace JobAnalyzer

/-- Lower-casing of text, modelling Python's `str.lower()` on the ASCII
inputs exercised here (`Char.toLower` lowers exactly 'A'..'Z'). -/
def lowerChars (s : String) : List Char := s.data.map Char.toLower

/-- Whether the first list is an initial segment of the second. -/
def isStartOf : List Char → List Char → Bool
  | [], _ => true
  | _ :: _, [] => false
  | c :: cs, d :: ds => c == d && isStartOf cs ds

/-- Whether `needle` occurs as a contiguous substring of `hay`;
models Python's `needle in hay` on strings. -/
def occursIn (needle : List Char) : List Char → Bool
  | [] => needle.isEmpty
  | d :: ds => isStartOf needle (d :: ds) || occursIn needle ds

/-- Number of distinct keywords from `kws` occurring as substrings of the
lowered text; models `sum(1 for keyword in keywords if keyword in text_lower)`
from `is_job_message`. -/
def countMatches (kws : List String) (textLower : List Char) : Nat :=
  (kws.filter (fun k => occursIn k.data textLower)).length

/-- `JobMessageAnalyzer.job_keywords['roles']` (job_analyzer.py lines 77-83). -/
def rolesKeywords : List String :=
  ["developer", "engineer", "programmer", "coder", "architect",
   "analyst", "designer", "manager", "lead", "senior", "junior",
   "intern", "fresher", "experienced", "fullstack", "frontend",
   "backend", "devops", "qa", "tester", "product manager",
   "project manager", "scrum master", "tech lead", "team lead"]

/-- `JobMessageAnalyzer.job_keywords['technologies']` (lines 84-90). -/
def technologiesKeywords : List String :=
  ["python", "java", "javascript", "react", "angular", "vue",
   "node", "django", "flask", "spring", "html", "css", "sql",
   "mongodb", "postgresql", "mysql", "aws", "azure", "docker",
   "kubernetes", "git", "linux", "android", "ios", "flutter",
   "react native", "machine learning", "data science", "ai"]

/-- `JobMessageAnalyzer.job_keywords['job_indicators']` (lines 91-97). -/
def jobIndicatorKeywords : List String :=
  ["hiring", "job", "vacancy", "position", "opening", "opportunity",
   "career", "employment", "work", "salary", "ctc", "lpa",
   "experience", "years", "apply", "resume", "cv", "interview",
   "recruitment", "hr", "human resource", "join our team",
   "we are hiring", "job alert", "job opportunity"]

/-- `JobMessageAnalyzer.job_keywords['location_indicators']` (lines 98-102). -/
def locationIndicatorKeywords : List String :=
  ["bangalore", "mumbai", "delhi", "hyderabad", "pune", "chennai",
   "kolkata", "gurgaon", "noida", "remote", "work from home",
   "wfh", "onsite", "hybrid", "office", "location"]

/-- The `category_matches['job_indicators']` count of `is_job_message`. -/
def jiCount (t : String) : Nat := countMatches jobIndicatorKeywords (lowerChars t)

/-- The `category_matches['roles']` count of `is_job_message`. -/
def roCount (t : String) : Nat := countMatches rolesKeywords (lowerChars t)

/-- The `category_matches['technologies']` count of `is_job_message`. -/
def teCount (t : String) : Nat := countMatches technologiesKeywords (lowerChars t)

/-- The `category_matches['location_indicators']` count of `is_job_message`. -/
def loCount (t : String) : Nat := countMatches locationIndicatorKeywords (lowerChars t)

/-- The `weighted_score` of `is_job_message` (lines 147-152): weights 3,
2, 1.5, 1 for job indicators, roles, technologies, locations. -/
def weightedScore (t : String) : ℚ :=
  jiCount t * 3 + roCount t * 2 + teCount t * (3/2) + loCount t * 1

/-- The `max_possible_score` of `is_job_message` (lines 155-160). -/
def maxPossibleScore : ℚ :=
  (jobIndicatorKeywords.length : ℚ) * 3 + (rolesKeywords.length : ℚ) * 2 +
  (technologiesKeywords.length : ℚ) * (3/2) + (locationIndicatorKeywords.length : ℚ) * 1

/-- The `confidence` of `is_job_message` (line 162). -/
def confidenceScore (t : String) : ℚ := min (weightedScore t / maxPossibleScore) 1

/-- The `is_job` boolean of `is_job_message` (lines 166-167). -/
def isJobFlag (t : String) : Bool :=
  (decide (confidenceScore t > 1/10) && decide (0 < jiCount t)) ||
    decide (confidenceScore t > 3/20)

/-- Shallow embedding of `JobMessageAnalyzer.is_job_message`
(job_analyzer.py lines 120-169).  The guard `if not message_text` is the
empty-string test for a `str` argument. -/
def is_job_message (t : String) : Bool × ℚ :=
  if t = "" then (false, 0) else (isJobFlag t, confidenceScore t)

/-- The scenario text of the spec (spec §8, claim C8). -/
def demoJobText : String :=
  "We are hiring Python developers, 3+ years experience, apply now, salary 10 LPA, Bangalore"

theorem demo_jiCount : jiCount demoJobText = 7 := by decide

theorem demo_roCount : roCount demoJobText = 1 := by decide

theorem demo_teCount : teCount demoJobText = 1 := by decide

theorem demo_loCount : loCount demoJobText = 1 := by decide

theorem keyword_lengths :
    jobIndicatorKeywords.length = 25 ∧ rolesKeywords.length = 25 ∧
    technologiesKeywords.length = 29 ∧ locationIndicatorKeywords.length = 16 := by
  decide

/-- The demo text scores exactly 17/123 (= 51/369 ≈ 0.138). -/
theorem demo_confidence : confidenceScore demoJobText = 17/123 := by
  rw [confidenceScore, weightedScore, maxPossibleScore, demo_jiCount, demo_roCount,
    demo_teCount, demo_loCount, keyword_lengths.1, keyword_lengths.2.1,
    keyword_lengths.2.2.1, keyword_lengths.2.2.2, min_def]
  norm_num

theorem demo_isJobFlag : isJobFlag demoJobText = true := by
  rw [isJobFlag, demo_confidence, demo_jiCount]
  norm_num

end JobAnalyzer

namespace JobAnalyzer

/-- Per-category count of distinct keywords present as substrings, stated
as the specification words it (spec §4.4 step 1). -/
def specCategoryCount (kws : List String) (t : String) : Nat :=
  (kws.filter (fun k => occursIn k.data (lowerChars t))).length

/-- The specification's `weighted` sum (spec §4.4 step 2). -/
def specWeighted (t : String) : ℚ :=
  3 * specCategoryCount jobIndicatorKeywords t + 2 * specCategoryCount rolesKeywords t +
    (3/2) * specCategoryCount technologiesKeywords t +
    1 * specCategoryCount locationIndicatorKeywords t

/-- The specification's `max_possible` constant (spec §4.4 step 2). -/
def specMaxPossible : ℚ :=
  3 * (jobIndicatorKeywords.length : ℚ) + 2 * (rolesKeywords.length : ℚ) +
    (3/2) * (technologiesKeywords.length : ℚ) + 1 * (locationIndicatorKeywords.length : ℚ)

/-- The specification's `confidence = min(weighted / max_possible, 1.0)`. -/
def specConfidence (t : String) : ℚ := min (specWeighted t / specMaxPossible) 1

/-- The specification's
`is_signal = (confidence > 0.10 AND job_indicators_count > 0) OR confidence > 0.15`. -/
def specIsSignal (t : String) : Prop :=
  (specConfidence t > 1/10 ∧ 0 < specCategoryCount jobIndicatorKeywords t) ∨
    specConfidence t > 3/20

theorem spec_count_eq (kws : List String) (t : String) :
    specCategoryCount kws t = countMatches kws (lowerChars t) := rfl

theorem weighted_eq_spec (t : String) : weightedScore t = specWeighted t := by
  unfold weightedScore specWeighted jiCount roCount teCount loCount
  rw [spec_count_eq, spec_count_eq, spec_count_eq, spec_count_eq]
  ring

theorem maxPossible_eq_spec : maxPossibleScore = specMaxPossible := by
  unfold maxPossibleScore specMaxPossible
  ring

theorem confidence_eq_spec (t : String) : confidenceScore t = specConfidence t := by
  unfold confidenceScore specConfidence
  rw [weighted_eq_spec, maxPossible_eq_spec]

theorem isJobFlag_iff_spec (t : String) : isJobFlag t = true ↔ specIsSignal t := by
  have hji : jiCount t = specCategoryCount jobIndicatorKeywords t := rfl
  rw [isJobFlag, specIsSignal]
  simp only [Bool.or_eq_true, Bool.and_eq_true, decide_eq_true_eq, confidence_eq_spec, hji]

theorem empty_counts :
    jiCount "" = 0 ∧ roCount "" = 0 ∧ teCount "" = 0 ∧ loCount "" = 0 := by decide

theorem empty_confidence : confidenceScore "" = 0 := by
  rw [confidenceScore, weightedScore, maxPossibleScore, empty_counts.1, empty_counts.2.1,
    empty_counts.2.2.1, empty_counts.2.2.2, keyword_lengths.1, keyword_lengths.2.1,
    keyword_lengths.2.2.1, keyword_lengths.2.2.2, min_def]
  norm_num

end JobAnalyzer

namespace JobAnalyzer

/-- A fetched message row, as consumed by `analyze_channel`
(fields other than the text play no role in the statistics). -/
structure RawMessage where
  message_id : Nat
  message_text : String
  timestamp : Nat
deriving Repr, DecidableEq

/-- The statistics part of `ChannelJobStats` (job_analyzer.py lines 40-51);
the channel-identification fields are pass-through strings and are dropped. -/
structure ChannelJobStats where
  total_messages : Nat
  job_messages : Nat
  job_percentage : ℚ
deriving Repr, DecidableEq

/-- Shallow embedding of `JobMessageAnalyzer.analyze_channel`
(job_analyzer.py lines 214-287): the empty-message early return, the
per-message `if message_text:` guard followed by `is_job_message`, and
`job_percentage = job_count / total_messages * 100`. -/
def analyze_channel (messages : List RawMessage) : ChannelJobStats :=
  if messages.isEmpty then ⟨0, 0, 0⟩
  else
    let jobCount :=
      (messages.filter (fun m => !(m.message_text == "") && (is_job_message m.message_text).1)).length
    let total := messages.length
    ⟨total, jobCount, (jobCount : ℚ) / (total : ℚ) * 100⟩

/-- The single-message input used to exhibit a percentage above 1. -/
def demoMessage : RawMessage := ⟨1, demoJobText, 0⟩

end JobAnalyzer

/-- C5: for every input text, `is_job_message` returns
`confidence = min(weighted / max_possible, 1.0)` where `weighted` sums
per-category counts of distinct keywords present as substrings weighted
3 (job_indicators), 2 (roles), 1.5 (technologies), 1 (locations), and
returns `is_signal = (confidence > 0.10 AND job_indicators_count > 0)
OR confidence > 0.15`. -/
theorem c5_scorer_matches_spec_formula (t : String) :
    (JobAnalyzer.is_job_message t).2 = JobAnalyzer.specConfidence t ∧
    ((JobAnalyzer.is_job_message t).1 = true ↔ JobAnalyzer.specIsSignal t) := by
  by_cases h : t = ""
  · subst h
    refine ⟨?_, ?_⟩
    · show (0 : ℚ) = JobAnalyzer.specConfidence ""
      rw [← JobAnalyzer.confidence_eq_spec, JobAnalyzer.empty_confidence]
    · show (false = true) ↔ _
      rw [JobAnalyzer.specIsSignal, ← JobAnalyzer.confidence_eq_spec,
        JobAnalyzer.empty_confidence]
      constructor
      · intro hc; exact absurd hc (by simp)
      · rintro (⟨hlt, _⟩ | hlt) <;> norm_num at hlt
  · rw [JobAnalyzer.is_job_message, if_neg h]
    exact ⟨JobAnalyzer.confidence_eq_spec t, JobAnalyzer.isJobFlag_iff_spec t⟩

/-- C8 counterexample: on the spec's scenario text the scorer does return
`is_signal = true`, but the confidence is 17/123 ≈ 0.138, which is not
greater than 0.15, refuting the claimed `confidence > 0.15`. -/
theorem c8_counterexample :
    (JobAnalyzer.is_job_message JobAnalyzer.demoJobText).1 = true ∧
    ¬ ((JobAnalyzer.is_job_message JobAnalyzer.demoJobText).2 > 3/20) := by
  have hne : JobAnalyzer.demoJobText ≠ "" := by decide
  rw [JobAnalyzer.is_job_message, if_neg hne]
  refine ⟨JobAnalyzer.demo_isJobFlag, ?_⟩
  rw [JobAnalyzer.demo_confidence]
  norm_num

/-- C8 amended: on the scenario text the scorer returns `is_signal = true`
with `confidence = 17/123`, which exceeds 0.10 but not 0.15. -/
theorem c8_amended_scenario :
    (JobAnalyzer.is_job_message JobAnalyzer.demoJobText).1 = true ∧
    (JobAnalyzer.is_job_message JobAnalyzer.demoJobText).2 = 17/123 ∧
    (JobAnalyzer.is_job_message JobAnalyzer.demoJobText).2 > 1/10 := by
  have hne : JobAnalyzer.demoJobText ≠ "" := by decide
  rw [JobAnalyzer.is_job_message, if_neg hne]
  refine ⟨JobAnalyzer.demo_isJobFlag, JobAnalyzer.demo_confidence, ?_⟩
  rw [JobAnalyzer.demo_confidence]
  norm_num

/-- C6 counterexample: on a one-message channel whose only message is a
job message, `analyze_channel` returns `job_percentage = 100`, violating
the claimed bound `density <= 1.0` (the code returns a 0-100 percentage,
not a 0-1 density). -/
theorem c6_counterexample :
    (JobAnalyzer.analyze_channel [JobAnalyzer.demoMessage]).job_percentage = 100 ∧
    ¬ ((JobAnalyzer.analyze_channel [JobAnalyzer.demoMessage]).job_percentage ≤ 1) := by
  have hflag := JobAnalyzer.demo_isJobFlag
  have hne : (JobAnalyzer.demoJobText == "") = false := by decide
  rw [JobAnalyzer.analyze_channel]
  simp only [JobAnalyzer.demoMessage, List.isEmpty_cons, List.filter, JobAnalyzer.is_job_message,
    hne, Bool.not_false, Bool.true_and, if_neg (by decide : ¬ JobAnalyzer.demoJobText = ""),
    hflag, List.length_cons, List.length_nil]
  norm_num

/-- C6 amended: `analyze_channel` always returns
`0 <= job_percentage <= 100`, with `job_percentage = 0` on an empty
message list (no division by zero occurs). -/
theorem c6_amended_percentage_bounds (messages : List JobAnalyzer.RawMessage) :
    0 ≤ (JobAnalyzer.analyze_channel messages).job_percentage ∧
    (JobAnalyzer.analyze_channel messages).job_percentage ≤ 100 ∧
    (messages.length = 0 → (JobAnalyzer.analyze_channel messages).job_percentage = 0) := by
  rw [JobAnalyzer.analyze_channel]
  by_cases h : messages.isEmpty
  · simp [h]
  · have hlen : 0 < messages.length := by
      cases messages with
      | nil => simp at h
      | cons a l => simp
    have hlenQ : (0 : ℚ) < (messages.length : ℚ) := by exact_mod_cast hlen
    have hfil : ((messages.filter
        (fun m => !(m.message_text == "") && (JobAnalyzer.is_job_message m.message_text).1)).length : ℚ)
        ≤ (messages.length : ℚ) := by
      exact_mod_cast List.length_filter_le _ _
    refine ⟨?_, ?_, ?_⟩
    · simp only [if_neg h]
      positivity
    · simp only [if_neg h]
      show _ / _ * 100 ≤ (100 : ℚ)
      have hdiv : ((messages.filter _).length : ℚ) / (messages.length : ℚ) ≤ 1 :=
        (div_le_one hlenQ).mpr hfil
      calc _ ≤ (1 : ℚ) * 100 := by
              exact mul_le_mul_of_nonneg_right hdiv (by norm_num)
        _ = 100 := by norm_num
    · intro h0
      exact absurd (List.isEmpty_iff_length_eq_zero.mpr h0) h

/-- C6 amended witness: the empty channel evaluates to percentage 0. -/
theorem c6_amended_percentage_bounds_witness :
    (JobAnalyzer.analyze_channel ([] : List JobAnalyzer.RawMessage)).job_percentage = 0 :=
  (c6_amended_percentage_bounds []).2.2 rfl

namespace EngineV2

/-- A row of the `persistent_assignments` table (models/assignment.py,
repository.py).  `uuid.uuid4()` identifiers and `datetime.now()` stamps
are modelled as caller-supplied tokens. -/
structure Assignment where
  id : Nat
  account_id : String
  group_id : String
  assigned_at : Nat
  status : String
  last_message_fetch : Option Nat := none
  total_messages_fetched : Nat := 0
  updated_at : Option Nat := none
deriving Repr, DecidableEq

/-- A row of the `assignment_history` table. -/
structure AssignmentHistory where
  id : Nat
  account_id : String
  group_id : String
  action : String
  timestamp : Nat
  reason : Option String
deriving Repr, DecidableEq

/-- A row of the `groups` table (models/group.py). -/
structure Group where
  id : String
  name : String
  link : String
  category : String
  priority : String
  credibility_score : ℚ
  total_members : Nat
deriving Repr, DecidableEq

/-- The SQLite database behind `DatabaseRepository`.  `fail = true`
models a store whose every SQL statement raises an `sqlite3` error
(persistence failure); rows are kept in insertion (rowid) order. -/
structure Store where
  assignments : List Assignment
  history : List AssignmentHistory
  groups : List Group
  fail : Bool
deriving Repr, DecidableEq

/-- `DatabaseRepository.get_assignment` (repository.py lines 245-268):
SELECT by `(account_id, group_id)` with no filter on status; the
`except` clause turns a store failure into `None`. -/
def get_assignment (st : Store) (accountId groupId : String) : Option Assignment :=
  if st.fail then none
  else st.assignments.find? (fun r => r.account_id == accountId && r.group_id == groupId)

/-- `DatabaseRepository.create_assignment` (repository.py lines 224-243).
The body's first statement, `group_id = group_data.get("id", ...)`,
reads the undefined name `group_data` and raises `NameError` before the
INSERT is reached; the `except Exception` clause catches it and returns
`False`.  Hence the call never writes and always reports failure. -/
def create_assignment (st : Store) (_row : Assignment) : Store × Bool := (st, false)

/-- `DatabaseRepository.update_assignment_status` (repository.py lines
321-333): UPDATE of every row matching `(account_id, group_id)`; returns
`True` even when no row matches, `False` only when the store fails. -/
def update_assignment_status (st : Store) (accountId groupId status : String) (now : Nat) :
    Store × Bool :=
  if st.fail then (st, false)
  else
    ({ st with
        assignments := st.assignments.map (fun r =>
          if r.account_id == accountId && r.group_id == groupId then
            { r with status := status, updated_at := some now }
          else r) },
      true)

/-- `DatabaseRepository.create_assignment_history` (repository.py lines
358-378).  Like `create_assignment`, its first statement raises
`NameError` on the undefined name `group_data`, so it never writes and
always returns `False`. -/
def create_assignment_history (st : Store) (_row : AssignmentHistory) : Store × Bool :=
  (st, false)

/-- `DatabaseRepository.get_all_groups` (repository.py lines 188-211);
a failing store yields `[]` through the `except` clause. -/
def get_all_groups (st : Store) : List Group :=
  if st.fail then [] else st.groups

/-- `DatabaseRepository.get_all_assigned_group_ids` (repository.py lines
335-345): group ids of rows with `status = 'active'`. -/
def get_all_assigned_group_ids (st : Store) : List String :=
  if st.fail then []
  else ((st.assignments.filter (fun r => r.status == "active")).map (fun r => r.group_id))

/-- Outcome of a Python call: a returned value or an escaped exception
(named by a string). -/
inductive PyOutcome (α : Type) where
  | ret (a : α)
  | exc (e : String)
deriving Repr, DecidableEq

/-- `PersistentAssignmentEngine.log_assignment_action` (assignment_engine.py
lines 154-169): builds a history row and stores it, swallowing both the
returned boolean and any exception. -/
def log_assignment_action (st : Store) (accountId groupId action : String)
    (reason : Option String) (histId now : Nat) : Store :=
  (create_assignment_history st
    ⟨histId, accountId, groupId, action, now, reason⟩).1

/-- `PersistentAssignmentEngine.assign_group_to_account`
(assignment_engine.py lines 21-51).  The outer `try/except` returns
`False` on any exception; since every repository call already catches
its own exceptions, the body never raises and the outcome is always a
normal return. -/
def assign_group_to_account (st : Store) (accountId groupId : String)
    (freshId now histId : Nat) : Store × PyOutcome Bool :=
  match get_assignment st accountId groupId with
  | some _ => (st, .ret true)
  | none =>
      let row : Assignment :=
        { id := freshId, account_id := accountId, group_id := groupId,
          assigned_at := now, status := "active" }
      let res := create_assignment st row
      if res.2 then
        (log_assignment_action res.1 accountId groupId "joined"
          (some "Initial assignment") histId now, .ret true)
      else (res.1, .ret res.2)

/-- `PersistentAssignmentEngine.unassign_group_from_account`
(assignment_engine.py lines 53-68): sets the matching rows' status to
`'left'`, then logs history when the update reported success. -/
def unassign_group_from_account (st : Store) (accountId groupId : String)
    (reason : String) (now histId : Nat) : Store × PyOutcome Bool :=
  let res := update_assignment_status st accountId groupId "left" now
  if res.2 then
    (log_assignment_action res.1 accountId groupId "left" (some reason) histId now,
      .ret res.2)
  else (res.1, .ret res.2)

/-- `PersistentAssignmentEngine.get_available_groups` (assignment_engine.py
lines 109-124): all groups whose id is in no active assignment, in table
order. -/
def get_available_groups (st : Store) : List Group :=
  let allGroups := get_all_groups st
  let assignedIds := get_all_assigned_group_ids st
  allGroups.filter (fun g => !(assignedIds.contains g.id))

/-- One engine call, as issued by a worker process.  Each engine call
touches the store through single-statement SQLite transactions, so a
concurrent execution of several calls is an interleaving of these
operations. -/
inductive EngineOp where
  | assign (accountId groupId : String) (freshId now histId : Nat)
  | unassign (accountId groupId reason : String) (now histId : Nat)

/-- The store after one engine call. -/
def applyOp (st : Store) : EngineOp → Store
  | .assign a g i n h => (assign_group_to_account st a g i n h).1
  | .unassign a g r n h => (unassign_group_from_account st a g r n h).1

/-- The store after a sequence of engine calls. -/
def runOps (st : Store) (ops : List EngineOp) : Store := ops.foldl applyOp st

/-- No two distinct assignment rows with `status = 'active'` share a
`group_id` (spec §3, Assignment invariant). -/
def UniqueActive (st : Store) : Prop :=
  st.assignments.Pairwise
    (fun r₁ r₂ => r₁.status = "active" → r₂.status = "active" → r₁.group_id ≠ r₂.group_id)

theorem assign_store_unchanged (st : Store) (a g : String) (i n h : Nat) :
    (assign_group_to_account st a g i n h).1 = st := by
  rw [assign_group_to_account]
  cases get_assignment st a g <;> simp [create_assignment]

theorem unassign_assignments_eq (st : Store) (a g reason : String) (n h : Nat) :
    (unassign_group_from_account st a g reason n h).1.assignments =
      if st.fail then st.assignments
      else st.assignments.map (fun r =>
        if r.account_id == a && r.group_id == g then
          { r with status := "left", updated_at := some n }
        else r) := by
  rw [unassign_group_from_account, update_assignment_status]
  by_cases hf : st.fail
  · simp [hf, log_assignment_action, create_assignment_history]
  · simp [hf, log_assignment_action, create_assignment_history]

theorem applyOp_unique_active (st : Store) (op : EngineOp) (hu : UniqueActive st) :
    UniqueActive (applyOp st op) := by
  cases op with
  | assign a g i n h =>
      show UniqueActive (assign_group_to_account st a g i n h).1
      rw [assign_store_unchanged]
      exact hu
  | unassign a g r n h =>
      show UniqueActive (unassign_group_from_account st a g r n h).1
      unfold UniqueActive
      rw [unassign_assignments_eq]
      by_cases hf : st.fail
      · simpa [hf] using hu
      · rw [if_neg hf]
        refine List.Pairwise.map _ ?_ hu
        intro r₁ r₂ hrel h₁ h₂
        by_cases hm₁ : (r₁.account_id == a && r₁.group_id == g) = true <;>
          by_cases hm₂ : (r₂.account_id == a && r₂.group_id == g) = true <;>
            simp [hm₁, hm₂] at h₁ h₂ ⊢ <;>
              first
                | (exact absurd h₁ (by decide))
                | (exact absurd h₂ (by decide))
                | (exact hrel h₁ h₂)

end EngineV2

/-- C1: from any store satisfying the active-uniqueness invariant, no
sequence of engine calls (binds or releases, in any interleaving by any
workers) ever produces two assignments with `status='active'` sharing a
`group_id`.  It holds because `assign_group_to_account` never mutates
the store (`create_assignment` aborts on the undefined name
`group_data`) and releases only turn statuses to `'left'`. -/
theorem c1_active_uniqueness_invariant (st : EngineV2.Store) (ops : List EngineV2.EngineOp)
    (hu : EngineV2.UniqueActive st) : EngineV2.UniqueActive (EngineV2.runOps st ops) := by
  induction ops generalizing st with
  | nil => exact hu
  | cons op rest ih =>
      exact ih _ (EngineV2.applyOp_unique_active st op hu)

/-- C1 witness: a store holding one active assignment satisfies the
invariant and still satisfies it after a bind of a second worker to the
same group followed by a release. -/
theorem c1_active_uniqueness_invariant_witness :
    EngineV2.UniqueActive
      (EngineV2.runOps
        ⟨[⟨1, "account_1", "group_1", 0, "active", none, 0, none⟩], [], [], false⟩
        [.assign "account_2" "group_1" 2 5 3, .unassign "account_1" "group_1" "done" 6 4]) :=
  c1_active_uniqueness_invariant _ _ (by simp [EngineV2.UniqueActive])

namespace EngineV2

theorem find?_isSome_of_mem {α : Type} (l : List α) (p : α → Bool) (x : α)
    (hx : x ∈ l) (hp : p x = true) : (l.find? p).isSome := by
  induction l with
  | nil => cases hx
  | cons a t ih =>
      rw [List.find?]
      cases hc : p a with
      | true => simp
      | false =>
          simp only [hc]
          rcases List.mem_cons.mp hx with h | h
          · subst h; rw [hc] at hp; cases hp
          · exact ih h

/-- A healthy store holding exactly one assignment row, already released
(`status='left'`), for `(account_1, group_1)`. -/
def releasedStore : Store :=
  ⟨[⟨1, "account_1", "group_1", 0, "left", none, 0, some 3⟩], [], [], false⟩

/-- A healthy store holding exactly one active assignment row for
`(account_1, group_1)`. -/
def activeStore : Store :=
  ⟨[⟨1, "account_1", "group_1", 0, "active", none, 0, none⟩], [], [], false⟩

/-- The same single-active-row store with a failing persistence layer. -/
def failingStore : Store :=
  ⟨[⟨1, "account_1", "group_1", 0, "active", none, 0, none⟩], [], [], true⟩

end EngineV2

/-- C3 (code bug): on a healthy empty store, the pair
`(account_1, group_1)` has no existing assignment, yet
`assign_group_to_account` returns failure and leaves the store without
any assignment row or history entry: `create_assignment` raises
`NameError` on the undefined name `group_data` before its INSERT, so the
bind never persists anything, contradicting both the claim and the
code's stated purpose. -/
theorem c3_bind_persists_nothing :
    EngineV2.get_assignment ⟨[], [], [], false⟩ "account_1" "group_1" = none ∧
    EngineV2.assign_group_to_account ⟨[], [], [], false⟩ "account_1" "group_1" 1 0 2 =
      (⟨[], [], [], false⟩, .ret false) :=
  ⟨rfl, rfl⟩

/-- C4 (code bug): releasing an active assignment twice returns success
both times, but the history after both calls is empty — zero entries of
the release action are recorded instead of the claimed one, because
`create_assignment_history` raises `NameError` on the undefined name
`group_data` and `log_assignment_action` swallows the failure. -/
theorem c4_double_release_writes_no_history :
    (EngineV2.unassign_group_from_account EngineV2.activeStore
        "account_1" "group_1" "Manual unassignment" 5 11).2 = .ret true ∧
    (EngineV2.unassign_group_from_account
        (EngineV2.unassign_group_from_account EngineV2.activeStore
          "account_1" "group_1" "Manual unassignment" 5 11).1
        "account_1" "group_1" "Manual unassignment" 6 12).2 = .ret true ∧
    ((EngineV2.unassign_group_from_account
        (EngineV2.unassign_group_from_account EngineV2.activeStore
          "account_1" "group_1" "Manual unassignment" 5 11).1
        "account_1" "group_1" "Manual unassignment" 6 12).1.history.filter
          (fun h => h.action == "left")).length = 0 ∧
    (EngineV2.unassign_group_from_account
        (EngineV2.unassign_group_from_account EngineV2.activeStore
          "account_1" "group_1" "Manual unassignment" 5 11).1
        "account_1" "group_1" "Manual unassignment" 6 12).1.history = [] := by
  refine ⟨rfl, rfl, rfl, rfl⟩

/-- C9 counterexample: with a failing persistence layer both the bind
and the release return the ordinary value `False` — the repository's
and engine's `except` clauses swallow the error, so no exception
propagates to the caller, refuting the claimed propagation. -/
theorem c9_counterexample :
    EngineV2.unassign_group_from_account EngineV2.failingStore
        "account_1" "group_1" "r" 5 11 = (EngineV2.failingStore, .ret false) ∧
    EngineV2.assign_group_to_account EngineV2.failingStore
        "account_2" "group_2" 1 0 2 = (EngineV2.failingStore, .ret false) ∧
    ¬ ∃ e, (EngineV2.unassign_group_from_account EngineV2.failingStore
        "account_1" "group_1" "r" 5 11).2 = EngineV2.PyOutcome.exc e := by
  refine ⟨rfl, rfl, ?_⟩
  rintro ⟨e, he⟩
  rw [show (EngineV2.unassign_group_from_account EngineV2.failingStore
      "account_1" "group_1" "r" 5 11).2 = EngineV2.PyOutcome.ret false from rfl] at he
  cases he

/-- C9 amended: if the persistent store fails during a bind or release,
the exception is caught inside the repository layer and the engine
returns `False` to its caller; the store is left completely unchanged
(no partial commit). -/
theorem c9_amended_failure_swallowed (st : EngineV2.Store) (a g reason : String)
    (i n h : Nat) (hf : st.fail = true) :
    EngineV2.assign_group_to_account st a g i n h = (st, .ret false) ∧
    EngineV2.unassign_group_from_account st a g reason n h = (st, .ret false) := by
  constructor
  · rw [EngineV2.assign_group_to_account, EngineV2.get_assignment, if_pos hf]
    rfl
  · rw [EngineV2.unassign_group_from_account, EngineV2.update_assignment_status, if_pos hf]
    rfl

/-- C9 amended witness: the failing store with one active row. -/
theorem c9_amended_failure_swallowed_witness :
    EngineV2.assign_group_to_account EngineV2.failingStore "a" "g" 1 0 2 =
        (EngineV2.failingStore, .ret false) ∧
    EngineV2.unassign_group_from_account EngineV2.failingStore "a" "g" "r" 0 2 =
        (EngineV2.failingStore, .ret false) :=
  ⟨(c9_amended_failure_swallowed EngineV2.failingStore "a" "g" "r" 1 0 2 rfl).1,
   (c9_amended_failure_swallowed EngineV2.failingStore "a" "g" "r" 1 0 2 rfl).2⟩

/-- C10: whenever any assignment row for `(worker, resource)` already
exists — whatever its status, including `'left'` —
`assign_group_to_account` returns success and leaves the store entirely
unchanged: nothing is inserted or updated and no history is appended, so
a released pair can never be re-activated through this operation. -/
theorem c10_existing_pair_returns_success_unchanged (st : EngineV2.Store)
    (a g : String) (i n h : Nat) (r : EngineV2.Assignment) (hf : st.fail = false)
    (hr : r ∈ st.assignments) (ha : r.account_id = a) (hg : r.group_id = g) :
    EngineV2.assign_group_to_account st a g i n h = (st, .ret true) := by
  have hsome : (EngineV2.get_assignment st a g).isSome := by
    rw [EngineV2.get_assignment, if_neg (by rw [hf]; exact Bool.false_ne_true)]
    exact EngineV2.find?_isSome_of_mem _ _ r hr (by rw [ha, hg]; simp)
  obtain ⟨x, hx⟩ := Option.isSome_iff_exists.mp hsome
  rw [EngineV2.assign_group_to_account, hx]

/-- C10 witness: on the store whose only row for `(account_1, group_1)`
has status `'left'`, the bind returns success and changes nothing. -/
theorem c10_existing_pair_returns_success_unchanged_witness :
    EngineV2.assign_group_to_account EngineV2.releasedStore "account_1" "group_1" 7 8 9 =
      (EngineV2.releasedStore, .ret true) :=
  c10_existing_pair_returns_success_unchanged EngineV2.releasedStore "account_1" "group_1"
    7 8 9 ⟨1, "account_1", "group_1", 0, "left", none, 0, some 3⟩ rfl
    (by simp [EngineV2.releasedStore]) rfl rfl

namespace UniversalGroupManager

/-- A universal-group record as stored in `data/universal_groups.json`
(universal_group_manager.py `_get_default_groups`). -/
structure UGroup where
  name : String
  link : String
  category : String
  priority : String
deriving Repr, DecidableEq

/-- `priority_order.get(x.get('priority', 'low'), 1)` from
`get_groups_for_account` (line 183-184): high ↦ 3, medium ↦ 2,
anything else ↦ 1. -/
def priority_order (p : String) : Nat :=
  if p == "high" then 3 else if p == "medium" then 2 else 1

/-- The comparison used by `available_groups.sort(key=..., reverse=True)`:
descending priority. -/
def byPriorityDesc (x y : UGroup) : Prop :=
  priority_order y.priority ≤ priority_order x.priority

instance : DecidableRel byPriorityDesc := fun _ _ => Nat.decLe _ _

instance : IsTotal UGroup byPriorityDesc :=
  ⟨fun a b => Nat.le_total (priority_order b.priority) (priority_order a.priority)⟩

instance : IsTrans UGroup byPriorityDesc :=
  ⟨fun _ _ _ hab hbc => le_trans hbc hab⟩

/-- Python's stable `list.sort(key=priority, reverse=True)`, modelled by
a stable insertion sort: descending priority, ties kept in list order. -/
def sort_by_priority (l : List UGroup) : List UGroup := l.insertionSort byPriorityDesc

/-- Association-list lookup, modelling Python `dict` access. -/
def alookup {κ α : Type} [BEq κ] (m : List (κ × α)) (k : κ) : Option α :=
  (m.find? (fun p => p.1 == k)).map Prod.snd

/-- Association-list value replacement at an existing key. -/
def aset {κ α : Type} [BEq κ] (m : List (κ × α)) (k : κ) (v : α) : List (κ × α) :=
  m.map (fun p => if p.1 == k then (k, v) else p)

/-- Python `if k not in d: d[k] = v` — a missing key is appended in
dictionary insertion order. -/
def aensure {κ α : Type} [BEq κ] (m : List (κ × α)) (k : κ) (v : α) : List (κ × α) :=
  if (alookup m k).isSome then m else m ++ [(k, v)]

/-- The manager's in-memory state: `self.accounts_daily_joins`, a dict
from calendar date to a dict from account name to the list of links
joined that day. -/
structure ManagerState where
  accounts_daily_joins : List (Nat × List (String × List String))
deriving Repr, DecidableEq

/-- `self.daily_join_limit = 10` (universal_group_manager.py line 13,
commented "Each account joins 10 groups per day"); never consulted by
`get_groups_for_account`. -/
def daily_join_limit : Nat := 10

/-- Shallow embedding of `UniversalGroupManager.get_groups_for_account`
(universal_group_manager.py lines 153-193).  `allGroups` is the content
of the universal-groups file (`load_universal_groups()`), `today` the
current date.  Returns the selected groups and the updated state. -/
def get_groups_for_account (allGroups : List UGroup) (accountName : String)
    (limit : Nat) (today : Nat) (st : ManagerState) : List UGroup × ManagerState :=
  let daily₁ := aensure st.accounts_daily_joins today []
  let dayMap := (alookup daily₁ today).getD []
  let dayMap₁ := aensure dayMap accountName []
  let alreadyJoined := (alookup dayMap₁ accountName).getD []
  let otherJoined := ((dayMap₁.filter (fun p => !(p.1 == accountName))).map Prod.snd).flatten
  let available := allGroups.filter
    (fun g => !(alreadyJoined.contains g.link) && !(otherJoined.contains g.link))
  let selected := (sort_by_priority available).take limit
  let dayMap₂ := aset dayMap₁ accountName (alreadyJoined ++ selected.map (fun g => g.link))
  (selected, ⟨aset daily₁ today dayMap₂⟩)

/-- Number of links recorded as joined by `account` on date `d`. -/
def joinedCount (st : ManagerState) (d : Nat) (account : String) : Nat :=
  ((alookup ((alookup st.accounts_daily_joins d).getD []) account).getD []).length

/-- A 20-group universal list (the groups file is external input), all
priority `high`, pairwise distinct links. -/
def twentyGroups : List UGroup :=
  [⟨"g01", "l01", "c", "high"⟩, ⟨"g02", "l02", "c", "high"⟩,
   ⟨"g03", "l03", "c", "high"⟩, ⟨"g04", "l04", "c", "high"⟩,
   ⟨"g05", "l05", "c", "high"⟩, ⟨"g06", "l06", "c", "high"⟩,
   ⟨"g07", "l07", "c", "high"⟩, ⟨"g08", "l08", "c", "high"⟩,
   ⟨"g09", "l09", "c", "high"⟩, ⟨"g10", "l10", "c", "high"⟩,
   ⟨"g11", "l11", "c", "high"⟩, ⟨"g12", "l12", "c", "high"⟩,
   ⟨"g13", "l13", "c", "high"⟩, ⟨"g14", "l14", "c", "high"⟩,
   ⟨"g15", "l15", "c", "high"⟩, ⟨"g16", "l16", "c", "high"⟩,
   ⟨"g17", "l17", "c", "high"⟩, ⟨"g18", "l18", "c", "high"⟩,
   ⟨"g19", "l19", "c", "high"⟩, ⟨"g20", "l20", "c", "high"⟩]

/-- State after one default-limit call for `Account 1` on date 0. -/
def afterFirstCall : List UGroup × ManagerState :=
  get_groups_for_account twentyGroups "Account 1" 10 0 ⟨[]⟩

/-- State after a second default-limit call on the same date. -/
def afterSecondCall : List UGroup × ManagerState :=
  get_groups_for_account twentyGroups "Account 1" 10 0 afterFirstCall.2

end UniversalGroupManager

namespace Settings

/-- `Settings.DAILY_JOIN_LIMIT` (telegram-database-v2/config/settings.py
line 15). -/
def DAILY_JOIN_LIMIT : Nat := 10

end Settings

/-- C2 (code bug): two consecutive same-day calls of
`get_groups_for_account` with the default limit leave `Account 1` with
20 groups acquired on one date — the method caps each call at `limit`
but never checks the cumulative daily total against the (unused)
`daily_join_limit` of 10, violating the claimed quota bound. -/
theorem c2_daily_quota_violated :
    UniversalGroupManager.joinedCount UniversalGroupManager.afterSecondCall.2 0 "Account 1" = 20 ∧
    UniversalGroupManager.daily_join_limit = 10 ∧
    Settings.DAILY_JOIN_LIMIT = 10 ∧
    ¬ (UniversalGroupManager.joinedCount UniversalGroupManager.afterSecondCall.2 0 "Account 1" ≤
        UniversalGroupManager.daily_join_limit) := by
  refine ⟨by decide, rfl, rfl, by decide⟩

namespace EngineV2

/-- The ordering the specification claims for `listAvailable`: priority
descending, then `credibility_score` descending (spec §4.1). -/
def claimOrdering (l : List Group) : Prop :=
  l.Pairwise (fun g₁ g₂ =>
    UniversalGroupManager.priority_order g₂.priority <
        UniversalGroupManager.priority_order g₁.priority ∨
      (UniversalGroupManager.priority_order g₁.priority =
          UniversalGroupManager.priority_order g₂.priority ∧
        g₂.credibility_score ≤ g₁.credibility_score))

/-- Two same-priority groups whose credibility scores are in ascending
insertion order. -/
def lowCredGroup : Group := ⟨"g1", "n1", "l1", "c", "high", 1, 0⟩

/-- See `lowCredGroup`. -/
def highCredGroup : Group := ⟨"g2", "n2", "l2", "c", "high", 5, 0⟩

/-- A healthy store with the two groups and no assignments. -/
def credStore : Store := ⟨[], [], [lowCredGroup, highCredGroup], false⟩

end EngineV2

/-- C7 counterexample: on a catalog holding two unassigned same-priority
groups with credibility scores 1 then 5 in insertion order,
`get_available_groups` returns them in insertion order, which is not
ordered by credibility descending — the code never consults
`credibility_score` (and applies no ordering at all). -/
theorem c7_counterexample :
    EngineV2.get_available_groups EngineV2.credStore =
      [EngineV2.lowCredGroup, EngineV2.highCredGroup] ∧
    ¬ EngineV2.claimOrdering (EngineV2.get_available_groups EngineV2.credStore) := by
  refine ⟨rfl, ?_⟩
  intro hord
  rw [show EngineV2.get_available_groups EngineV2.credStore =
    [EngineV2.lowCredGroup, EngineV2.highCredGroup] from rfl] at hord
  have h := (List.pairwise_cons.mp hord).1 EngineV2.highCredGroup (by simp)
  rcases h with h | ⟨_, hle⟩
  · exact absurd h (by decide)
  · have : ¬ ((5 : ℚ) ≤ 1) := by norm_num
    exact this hle

namespace EngineV2

/-- Replacement of one group's credibility score. -/
def credMap (f : ℚ → ℚ) (g : Group) : Group :=
  { g with credibility_score := f g.credibility_score }

/-- The same store with every group's credibility score reassigned. -/
def withCreds (f : ℚ → ℚ) (st : Store) : Store :=
  { st with groups := st.groups.map (credMap f) }

end EngineV2

namespace UniversalGroupManager

/-- The `already_joined` local of `get_groups_for_account` (lines
157-165): today's list for this account, after the dict initialization
steps. -/
def already_joined (account : String) (today : Nat) (st : ManagerState) : List String :=
  (alookup
    (aensure ((alookup (aensure st.accounts_daily_joins today []) today).getD []) account [])
    account).getD []

/-- The `other_accounts_joined` local (lines 170-174): links joined
today by every other account. -/
def other_joined (account : String) (today : Nat) (st : ManagerState) : List String :=
  (((aensure ((alookup (aensure st.accounts_daily_joins today []) today).getD []) account
      []).filter (fun p => !(p.1 == account))).map Prod.snd).flatten

/-- The `available_groups` local (lines 176-180): the input groups not
joined by this account nor by another account today, in input order. -/
def available_groups (allGroups : List UGroup) (account : String) (today : Nat)
    (st : ManagerState) : List UGroup :=
  allGroups.filter (fun g =>
    !((already_joined account today st).contains g.link) &&
      !((other_joined account today st).contains g.link))

theorem orderedInsert_filter_key (x : UGroup) (s : List UGroup) (k : Nat) :
    (List.orderedInsert byPriorityDesc x s).filter
        (fun g => priority_order g.priority == k) =
      if priority_order x.priority == k then
        x :: s.filter (fun g => priority_order g.priority == k)
      else s.filter (fun g => priority_order g.priority == k) := by
  induction s with
  | nil =>
      rw [show List.orderedInsert byPriorityDesc x ([] : List UGroup) = [x] from rfl,
        List.filter_cons]
  | cons y s ih =>
      rw [List.orderedInsert]
      by_cases hr : byPriorityDesc x y
      · rw [if_pos hr, List.filter_cons]
      · rw [if_neg hr, List.filter_cons, ih, List.filter_cons]
        by_cases hx : (priority_order x.priority == k) = true
        · have hr' : ¬ (priority_order y.priority ≤ priority_order x.priority) := hr
          have hlt : priority_order x.priority < priority_order y.priority := by omega
          have hxk : priority_order x.priority = k := by simpa using hx
          have hykn : ¬ ((priority_order y.priority == k) = true) := by
            intro hyk
            have hyk' : priority_order y.priority = k := by simpa using hyk
            rw [hyk', ← hxk] at hlt
            exact Nat.lt_irrefl _ hlt
          simp only [if_pos hx, if_neg hykn]
        · simp only [if_neg hx]

/-- Stability of the sort used by `get_groups_for_account`: within each
priority class, the sorted list keeps exactly the input order. -/
theorem sort_filter_key (l : List UGroup) (k : Nat) :
    (sort_by_priority l).filter (fun g => priority_order g.priority == k) =
      l.filter (fun g => priority_order g.priority == k) := by
  induction l with
  | nil => rfl
  | cons x s ih =>
      rw [sort_by_priority, List.insertionSort, orderedInsert_filter_key]
      have ih' : (List.insertionSort byPriorityDesc s).filter
          (fun g => priority_order g.priority == k) =
          s.filter (fun g => priority_order g.priority == k) := ih
      rw [ih', List.filter_cons]

end UniversalGroupManager

/-- C7 amended: (i) `get_available_groups` returns exactly the groups
with no active assignment, as a sublist of the catalog — hence in
catalog insertion order, with no priority or credibility ordering — and
its output is pointwise invariant under arbitrary reassignment of
credibility scores (credibility is never consulted); (ii)
`get_groups_for_account` returns the first `limit` elements of the
priority-descending stable sort of the available groups: the available
list is a sublist of the input list, the sorted list is a permutation
of it ordered by priority descending, and within each priority class it
keeps exactly the insertion order (ties broken by insertion order).
Both operations are pure functions of the state, hence deterministic. -/
theorem c7_amended_available_and_ordering :
    (∀ (st : EngineV2.Store) (g : EngineV2.Group), st.fail = false →
      (g ∈ EngineV2.get_available_groups st ↔
        g ∈ st.groups ∧
          ∀ r ∈ st.assignments, r.status = "active" → r.group_id ≠ g.id)) ∧
    (∀ st : EngineV2.Store, st.fail = false →
      List.Sublist (EngineV2.get_available_groups st) st.groups) ∧
    (∀ (f : ℚ → ℚ) (st : EngineV2.Store),
      EngineV2.get_available_groups (EngineV2.withCreds f st) =
        (EngineV2.get_available_groups st).map (EngineV2.credMap f)) ∧
    (∀ (allGroups : List UniversalGroupManager.UGroup) (account : String)
        (limit today : Nat) (st : UniversalGroupManager.ManagerState),
      (UniversalGroupManager.get_groups_for_account allGroups account limit today st).1 =
          (UniversalGroupManager.sort_by_priority
            (UniversalGroupManager.available_groups allGroups account today st)).take limit ∧
      List.Sublist (UniversalGroupManager.available_groups allGroups account today st)
        allGroups ∧
      List.Perm
        (UniversalGroupManager.sort_by_priority
          (UniversalGroupManager.available_groups allGroups account today st))
        (UniversalGroupManager.available_groups allGroups account today st) ∧
      (UniversalGroupManager.sort_by_priority
        (UniversalGroupManager.available_groups allGroups account today st)).Pairwise
          UniversalGroupManager.byPriorityDesc ∧
      (∀ k : Nat,
        (UniversalGroupManager.sort_by_priority
          (UniversalGroupManager.available_groups allGroups account today st)).filter
            (fun g => UniversalGroupManager.priority_order g.priority == k) =
          (UniversalGroupManager.available_groups allGroups account today st).filter
            (fun g => UniversalGroupManager.priority_order g.priority == k))) := by
  refine ⟨?_, ?_, ?_, ?_⟩
  · intro st g hf
    rw [EngineV2.get_available_groups, EngineV2.get_all_groups,
      EngineV2.get_all_assigned_group_ids, if_neg (by rw [hf]; exact Bool.false_ne_true),
      if_neg (by rw [hf]; exact Bool.false_ne_true)]
    rw [List.mem_filter]
    constructor
    · rintro ⟨hmem, hpred⟩
      refine ⟨hmem, fun r hr hact heq => ?_⟩
      have hin : ((st.assignments.filter (fun r => r.status == "active")).map
          (fun r => r.group_id)).contains g.id = true :=
        List.elem_iff.mpr
          (List.mem_map.mpr ⟨r, List.mem_filter.mpr ⟨hr, by rw [hact]; rfl⟩, heq⟩)
      rw [hin] at hpred
      simp at hpred
    · rintro ⟨hmem, hnone⟩
      refine ⟨hmem, ?_⟩
      cases hc : ((st.assignments.filter (fun r => r.status == "active")).map
          (fun r => r.group_id)).contains g.id with
      | false => rfl
      | true =>
          obtain ⟨r, hrmem, hrid⟩ := List.mem_map.mp (List.elem_iff.mp hc)
          obtain ⟨hrmem', hract⟩ := List.mem_filter.mp hrmem
          exact absurd hrid (hnone r hrmem' (by simpa using hract))
  · intro st hf
    rw [EngineV2.get_available_groups, EngineV2.get_all_groups,
      if_neg (by rw [hf]; exact Bool.false_ne_true)]
    exact List.filter_sublist _
  · intro f st
    have h1 : (EngineV2.withCreds f st).fail = st.fail := rfl
    have h2 : (EngineV2.withCreds f st).assignments = st.assignments := rfl
    have h3 : (EngineV2.withCreds f st).groups = st.groups.map (EngineV2.credMap f) := rfl
    rw [EngineV2.get_available_groups, EngineV2.get_available_groups,
      EngineV2.get_all_groups, EngineV2.get_all_groups,
      EngineV2.get_all_assigned_group_ids, EngineV2.get_all_assigned_group_ids,
      h1, h2, h3]
    by_cases hf : st.fail = true
    · simp [hf]
    · simp only [if_neg hf]
      rw [List.filter_map]
      congr 1
  · intro allGroups account limit today st
    exact ⟨rfl, List.filter_sublist _,
      List.perm_insertionSort UniversalGroupManager.byPriorityDesc _,
      List.sorted_insertionSort UniversalGroupManager.byPriorityDesc _,
      fun k => UniversalGroupManager.sort_filter_key _ k⟩

/-- C7 amended witness: on the two-group store, the high-credibility
group is available (it is in the catalog and nothing is assigned). -/
theorem c7_amended_available_and_ordering_witness :
    EngineV2.highCredGroup ∈ EngineV2.get_available_groups EngineV2.credStore :=
  ((c7_amended_available_and_ordering.1 EngineV2.credStore EngineV2.highCredGroup rfl).mpr
    ⟨by simp [EngineV2.credStore], by simp [EngineV2.credStore]⟩)
